import Mathlib

/-!
Verification development for the PoseApp motion-analysis core.

Shallow embedding, over exact rational arithmetic, of:
  * `score_band` and friends (src/poseapp/scoring/scorer.py),
  * the repetition-cycle state machine `RepCycleDetector`
    (src/poseapp/analysis/rep_detector.py),
  * the per-activity rule engine `assess_activity_rep`
    (src/poseapp/analysis/activity_rules.py),
  * the template matcher `guide_match_activity_window`
    (src/poseapp/analysis/guide_match.py),
  * the gait tracker `GaitTracker` (src/poseapp/gait/metrics.py).

Modelling conventions:
  * Python floats are modelled as `ℚ`; a value that can be `None` or NaN is
    modelled as `Option ℚ` with `none` standing for "missing or non-finite"
    (the code treats `a is None or not (a == a)` uniformly).
  * Irrational primitives (`np.hypot`, the square root inside `np.nanstd`)
    are passed in as explicit function parameters; every theorem below either
    quantifies over them or proves a fact independent of them.  The one
    square-root comparison that decides control flow (`corr >= 0.2` in the
    jumping-jack rhythm check) is translated to its exact algebraic
    equivalent over squares, see `jumpingJackConstraints`.
-/

namespace PoseApp

/-- Qualitative quality tier derived from a numeric score
(strings "Green"/"Amber"/"Red" in scorer.py). -/
inductive Band
  | Green
  | Amber
  | Red
deriving DecidableEq

/-- `score_band(measured, target)` from src/poseapp/scoring/scorer.py:
`(0, Red)` if `measured` is missing/non-finite, else banded by the absolute
deviation from `target` with the fixed 5°/10° cutoffs. -/
def score_band (measured : Option ℚ) (target : ℚ) : ℚ × Band :=
  match measured with
  | none => (0, Band.Red)
  | some m =>
    let d := |m - target|
    if d ≤ 5 then (1, Band.Green)
    else if d ≤ 10 then (1/2, Band.Amber)
    else (0, Band.Red)

/-! ## Rep cycle detector (src/poseapp/analysis/rep_detector.py) -/

/-- `CycleParams` from rep_detector.py. -/
structure CycleParams where
  baseline_band : ℚ
  up_thresh : ℚ
  down_thresh : ℚ
  min_duration : ℚ
  max_duration : ℚ
  peak_hold : ℚ
deriving DecidableEq

/-- The default `CycleParams()` (6, 25, 12, 0.40, 6.00, 0.08). -/
def defaultCycleParams : CycleParams :=
  ⟨6, 25, 12, 2/5, 6, 2/25⟩

/-- The five states of the detector's state machine. -/
inductive DetPhase
  | INIT
  | AT_BASELINE
  | GOING_UP
  | ABOVE
  | GOING_DOWN
deriving DecidableEq

/-- Mutable state of `RepCycleDetector` (fields set by `reset`). -/
structure DetState where
  phase : DetPhase
  baseline : Option ℚ
  lastT : Option ℚ
  tCycleStart : Option ℚ
  tAboveStart : Option ℚ
deriving DecidableEq

/-- State right after `reset()`. -/
def initDet : DetState :=
  ⟨DetPhase.INIT, none, none, none, none⟩

/-- One completed repetition event `{'t0': ..., 't1': ...}`. -/
structure RepEvent where
  t0 : ℚ
  t1 : ℚ
deriving DecidableEq

/-- `_ensure_baseline`: slow EMA drift correction
`baseline = 0.98*baseline + 0.02*value` (the `baseline is None` case is
handled inline in `detUpdate`, as in `update` itself). -/
def ensureBaseline (b a : ℚ) : ℚ :=
  (49/50) * b + (1/50) * a

/-- The safety-timeout block at the end of `update` plus the final
`self._last_t = t; return None` (lines 121-128 of rep_detector.py). -/
def timeoutAndFinish (p : CycleParams) (s : DetState) (t : ℚ) :
    DetState × Option RepEvent :=
  let s :=
    match s.tCycleStart with
    | some c =>
      if p.max_duration < t - c then
        { s with phase := DetPhase.AT_BASELINE, tCycleStart := none,
                 tAboveStart := none }
      else s
    | none => s
  ({ s with lastT := some t }, none)

/-- `RepCycleDetector.update(t, a)`.  `a? = none` models a `None`/NaN angle
sample (`a is None or not (a == a)`).  Returns the new state and the emitted
event, if any.  Mirrors the control flow of rep_detector.py lines 53-128;
note that the event-emitting branch returns early, so `_last_t` is *not*
updated on the emitting call. -/
def detUpdate (p : CycleParams) (s : DetState) (t : ℚ) (a? : Option ℚ) :
    DetState × Option RepEvent :=
  match a? with
  | none => ({ s with lastT := some t }, none)
  | some a =>
    -- initialize baseline on first frames
    let b := match s.baseline with | none => a | some b => b
    let s := { s with baseline := some b }
    match s.phase with
    | DetPhase.INIT =>
      -- wait until the signal stabilizes near baseline; early return
      let s :=
        if |a - b| ≤ p.baseline_band then
          { s with baseline := some (ensureBaseline b a),
                   phase := DetPhase.AT_BASELINE }
        else s
      ({ s with lastT := some t }, none)
    | DetPhase.AT_BASELINE =>
      let b' := ensureBaseline b a
      let s := { s with baseline := some b' }
      let s :=
        if p.up_thresh ≤ a - b' then
          { s with phase := DetPhase.GOING_UP, tCycleStart := some t,
                   tAboveStart := none }
        else s
      timeoutAndFinish p s t
    | DetPhase.GOING_UP =>
      let s :=
        if p.up_thresh ≤ a - b then
          match s.tAboveStart with
          | none => { s with tAboveStart := some t }
          | some u =>
            if p.peak_hold ≤ t - u then { s with phase := DetPhase.ABOVE }
            else s
        else
          -- fell back prematurely: revert only if already near baseline
          if |a - b| ≤ p.baseline_band then
            { s with phase := DetPhase.AT_BASELINE, tCycleStart := none,
                     tAboveStart := none }
          else s
      timeoutAndFinish p s t
    | DetPhase.ABOVE =>
      let s :=
        if a - b < p.up_thresh * (1/2) then
          { s with phase := DetPhase.GOING_DOWN }
        else s
      timeoutAndFinish p s t
    | DetPhase.GOING_DOWN =>
      if |a - b| ≤ p.baseline_band then
        match s.tCycleStart with
        | some c =>
          let dur := t - c
          let s' := { s with phase := DetPhase.AT_BASELINE,
                             tAboveStart := none, tCycleStart := none }
          if p.min_duration ≤ dur ∧ dur ≤ p.max_duration then
            (s', some ⟨t - dur, t⟩)     -- early return: one rep completed
          else
            timeoutAndFinish p s' t
        | none =>
          timeoutAndFinish p { s with phase := DetPhase.AT_BASELINE } t
      else
        timeoutAndFinish p s t

/-- Feed a whole sample list through the detector, collecting emitted events
in order. -/
def runDet (p : CycleParams) (samples : List (ℚ × Option ℚ)) :
    DetState × List RepEvent :=
  samples.foldl
    (fun acc sa =>
      let r := detUpdate p acc.1 sa.1 sa.2
      (r.1, acc.2 ++ r.2.toList))
    (initDet, [])

/-! ## Claims about the scoring primitive and the detector -/

/-- C5: `score_band` returns `(0, Red)` when the measurement is missing or
non-finite; otherwise, with `d = |measured - target|`, it returns
`(1, Green)` for `d ≤ 5`, `(1/2, Amber)` for `5 < d ≤ 10` and `(0, Red)`
otherwise; the score is monotone non-increasing in the deviation; boundary
cases: deviation exactly 5 is Green, exactly 10 is Amber, 10.01 is Red. -/
theorem C5_score_band :
    (∀ t : ℚ, score_band none t = (0, Band.Red)) ∧
    (∀ m t : ℚ, |m - t| ≤ 5 → score_band (some m) t = (1, Band.Green)) ∧
    (∀ m t : ℚ, 5 < |m - t| → |m - t| ≤ 10 →
        score_band (some m) t = (1/2, Band.Amber)) ∧
    (∀ m t : ℚ, 10 < |m - t| → score_band (some m) t = (0, Band.Red)) ∧
    (∀ m₁ m₂ t : ℚ, |m₁ - t| ≤ |m₂ - t| →
        (score_band (some m₂) t).1 ≤ (score_band (some m₁) t).1) ∧
    score_band (some 5) 0 = (1, Band.Green) ∧
    score_band (some 10) 0 = (1/2, Band.Amber) ∧
    score_band (some (1001/100)) 0 = (0, Band.Red) := by
  refine ⟨fun t => rfl, ?_, ?_, ?_, ?_, by norm_num [score_band, abs_le],
    by norm_num [score_band, abs_le], by norm_num [score_band, abs_le]⟩
  · intro m t h
    simp only [score_band]
    rw [if_pos h]
  · intro m t h1 h2
    simp only [score_band]
    rw [if_neg (by linarith), if_pos h2]
  · intro m t h
    simp only [score_band]
    rw [if_neg (by linarith), if_neg (by linarith)]
  · intro m₁ m₂ t h
    simp only [score_band]
    split_ifs <;> norm_num <;> linarith

/-- Witness for C5 at a concrete input. -/
theorem C5_witness :
    |(3 : ℚ) - 0| ≤ 5 ∧ score_band (some 3) 0 = (1, Band.Green) :=
  ⟨by norm_num, C5_score_band.2.1 3 0 (by norm_num)⟩

/-- C4: a `None`/NaN angle sample never changes the detector's state,
baseline, cycle-start or above-start; only the last-seen timestamp is
updated, and no event is emitted (rep_detector.py lines 61-63). -/
theorem C4_nan_sample_is_inert (p : CycleParams) (s : DetState) (t : ℚ) :
    detUpdate p s t none = ({ s with lastT := some t }, none) :=
  rfl

/-- C9: on a freshly-reset detector, the first finite sample seeds the
baseline to exactly the sample value and transitions INIT → AT_BASELINE in
that same call, returning no event (the EMA `0.98*a + 0.02*a = a` keeps the
seeded baseline exact; holds whenever the configured baseline band is
nonnegative). -/
theorem C9_first_finite_sample_seeds (p : CycleParams) (t a : ℚ)
    (hband : 0 ≤ p.baseline_band) :
    detUpdate p initDet t (some a) =
      (⟨DetPhase.AT_BASELINE, some a, some t, none, none⟩, none) := by
  have hema : ensureBaseline a a = a := by
    unfold ensureBaseline; ring
  simp [detUpdate, initDet, hband, hema]

/-- Witness for C9 at the default parameters. -/
theorem C9_witness :
    0 ≤ defaultCycleParams.baseline_band ∧
    detUpdate defaultCycleParams initDet 0 (some 10) =
      (⟨DetPhase.AT_BASELINE, some 10, some 0, none, none⟩, none) :=
  ⟨by norm_num [defaultCycleParams],
   C9_first_finite_sample_seeds defaultCycleParams 0 10
     (by norm_num [defaultCycleParams])⟩

/-- C3: in GOING_DOWN with an open cycle, the first sample back within
`baseline_band` of baseline resets the state to AT_BASELINE and clears the
cycle, and the event `{t0 = cycle start, t1 = t}` is returned iff the
elapsed duration lies in `[min_duration, max_duration]`; moreover a concrete
synthetic signal rising from baseline 10 to 40 (=B+30), holding above
threshold ≥ peak_hold, and returning to 10 with total duration 0.7 s yields
exactly one event whose `t1` is the re-entry time 0.9. -/
theorem C3_going_down_emit (p : CycleParams) (s : DetState) (t a b c : ℚ)
    (hphase : s.phase = DetPhase.GOING_DOWN)
    (hbase : s.baseline = some b)
    (hcyc : s.tCycleStart = some c)
    (hnear : |a - b| ≤ p.baseline_band) :
    ((detUpdate p s t (some a)).1.phase = DetPhase.AT_BASELINE ∧
     (detUpdate p s t (some a)).1.tCycleStart = none ∧
     ((detUpdate p s t (some a)).2 = some ⟨c, t⟩ ↔
        p.min_duration ≤ t - c ∧ t - c ≤ p.max_duration) ∧
     ((detUpdate p s t (some a)).2 = none ↔
        ¬(p.min_duration ≤ t - c ∧ t - c ≤ p.max_duration))) ∧
    (runDet defaultCycleParams
       [(0, some 10), (1/5, some 40), (3/10, some 40), (1/2, some 40),
        (7/10, some 20), (9/10, some 10)]).2 = [⟨1/5, 9/10⟩] := by
  constructor
  · obtain ⟨ph, bl, lt, cs, asv⟩ := s
    simp only at hphase hbase hcyc
    subst hphase hbase hcyc
    simp only [detUpdate, timeoutAndFinish]
    rw [if_pos hnear]
    by_cases hdur : p.min_duration ≤ t - c ∧ t - c ≤ p.max_duration
    · rw [if_pos hdur]
      refine ⟨rfl, rfl, ?_, ?_⟩
      · simp [sub_sub_cancel, hdur]
      · simp [hdur]
    · rw [if_neg hdur]
      refine ⟨rfl, rfl, ?_, ?_⟩
      · simp [hdur]
        intro h
        by_contra hc
        exact hdur ⟨h, by linarith⟩
      · simp [hdur]
        intro h
        by_contra hc
        exact hdur ⟨h, by linarith⟩
  · norm_num [runDet, detUpdate, timeoutAndFinish, ensureBaseline, initDet,
      defaultCycleParams, abs_le]

/-- Witness for C3 at a concrete near-baseline sample with a valid
duration. -/
theorem C3_witness :
    (detUpdate defaultCycleParams
        ⟨DetPhase.GOING_DOWN, some 10, none, some (1/5), none⟩
        (9/10) (some 10)).2 = some ⟨1/5, 9/10⟩ := by
  have h := C3_going_down_emit defaultCycleParams
    ⟨DetPhase.GOING_DOWN, some 10, none, some (1/5), none⟩
    (9/10) 10 10 (1/5) rfl rfl rfl
    (by norm_num [defaultCycleParams])
  exact (h.1.2.2.1).mpr (by norm_num [defaultCycleParams])

/-- C2 counterexample: the detector transitions GOING_UP → ABOVE even though
the excursion did **not** stay ≥ `up_thresh` continuously for `peak_hold`
seconds: the sample at t = 1.02 (inside the hold window [1.01, 1.1]) has
excursion 15 - 0.6 = 14.4 < 25, yet the hold-start timestamp is kept (it is
only cleared when the signal comes back within `baseline_band`), so the
sample at t = 1.1 still completes the hold and reaches ABOVE. -/
theorem C2_counterexample :
    (runDet defaultCycleParams
        [(0, some 0), (1, some 30), (101/100, some 30), (51/50, some 15),
         (11/10, some 30)]).1.phase = DetPhase.ABOVE ∧
    (runDet defaultCycleParams
        [(0, some 0), (1, some 30), (101/100, some 30)]).1 =
      ⟨DetPhase.GOING_UP, some (3/5), some (101/100), some 1,
       some (101/100)⟩ ∧
    (runDet defaultCycleParams
        [(0, some 0), (1, some 30), (101/100, some 30), (51/50, some 15)]).1 =
      ⟨DetPhase.GOING_UP, some (3/5), some (51/50), some 1,
       some (101/100)⟩ ∧
    (15 : ℚ) - 3/5 < defaultCycleParams.up_thresh ∧
    (101/100 : ℚ) ≤ 51/50 ∧ (51/50 : ℚ) ≤ 11/10 ∧
    defaultCycleParams.peak_hold ≤ (11/10 : ℚ) - 101/100 := by
  norm_num [runDet, detUpdate, timeoutAndFinish, ensureBaseline, initDet,
    defaultCycleParams, abs_le]

/-- C2 (amended): in GOING_UP with an open cycle, a finite sample reaches
ABOVE iff its excursion is ≥ `up_thresh`, the hold-start timestamp is set
and at least `peak_hold` old, and the safety timeout does not fire — the
hold-start is *not* reset by intermediate samples whose excursion dips below
`up_thresh` while staying off baseline; and a sample back within
`baseline_band` (with excursion below `up_thresh`) aborts to AT_BASELINE
with the cycle start cleared and no event emitted. -/
theorem C2_amended (p : CycleParams) (s : DetState) (t a b c : ℚ)
    (hphase : s.phase = DetPhase.GOING_UP)
    (hbase : s.baseline = some b)
    (hcyc : s.tCycleStart = some c) :
    (detUpdate p s t (some a)).2 = none ∧
    ((detUpdate p s t (some a)).1.phase = DetPhase.ABOVE ↔
      (p.up_thresh ≤ a - b ∧
       (∃ u, s.tAboveStart = some u ∧ p.peak_hold ≤ t - u) ∧
       ¬ p.max_duration < t - c)) ∧
    (a - b < p.up_thresh → |a - b| ≤ p.baseline_band →
      (detUpdate p s t (some a)).1.phase = DetPhase.AT_BASELINE ∧
      (detUpdate p s t (some a)).1.tCycleStart = none ∧
      (detUpdate p s t (some a)).1.tAboveStart = none) := by
  obtain ⟨ph, bl, lt, cs, asv⟩ := s
  simp only at hphase hbase hcyc
  subst hphase hbase hcyc
  by_cases hup : p.up_thresh ≤ a - b
  · cases asv with
    | none =>
      by_cases htime : p.max_duration < t - c
      · simp [detUpdate, hup, htime, timeoutAndFinish]
      · simp [detUpdate, hup, htime, timeoutAndFinish]
    | some u =>
      by_cases hhold : p.peak_hold ≤ t - u
      · by_cases htime : p.max_duration < t - c
        · simp [detUpdate, hup, hhold, htime, timeoutAndFinish]
        · simp [detUpdate, hup, hhold, htime, timeoutAndFinish]
      · by_cases htime : p.max_duration < t - c
        · simp [detUpdate, hup, hhold, htime, timeoutAndFinish]
        · simp [detUpdate, hup, hhold, htime, timeoutAndFinish]
  · by_cases hnear : |a - b| ≤ p.baseline_band
    · simp [detUpdate, hup, hnear, timeoutAndFinish]
    · by_cases htime : p.max_duration < t - c
      · simp [detUpdate, hup, hnear, htime, timeoutAndFinish]
      · simp [detUpdate, hup, hnear, htime, timeoutAndFinish]

/-- Witness for C2 (amended): a concrete GOING_UP state whose hold completes
on this sample and reaches ABOVE. -/
theorem C2_amended_witness :
    (detUpdate defaultCycleParams
        ⟨DetPhase.GOING_UP, some 0, none, some 0, some 0⟩
        (1/10) (some 30)).1.phase = DetPhase.ABOVE := by
  have h := C2_amended defaultCycleParams
    ⟨DetPhase.GOING_UP, some 0, none, some 0, some 0⟩
    (1/10) 30 0 0 rfl rfl rfl
  exact h.2.1.mpr ⟨by norm_num [defaultCycleParams],
    ⟨0, rfl, by norm_num [defaultCycleParams]⟩,
    by norm_num [defaultCycleParams]⟩

/-! ## Numeric and list helpers shared by the rule engine and the matcher -/

/-- `np.mean` (0 on the empty list, which the modelled code paths never
produce where the mean is used). -/
def meanQ (l : List ℚ) : ℚ :=
  l.sum / (l.length : ℚ)

/-- Population variance, i.e. `np.std(l)**2` with `ddof = 0`. -/
def varQ (l : List ℚ) : ℚ :=
  meanQ (l.map (fun x => (x - meanQ l)^2))

/-- Population covariance of two equally long lists; `np.corrcoef(a,b)[0,1]`
is `covQ a b / (√(varQ a) * √(varQ b))` (the `ddof` normalisations cancel in
the ratio). -/
def covQ (a b : List ℚ) : ℚ :=
  meanQ (List.zipWith (fun x y => (x - meanQ a) * (y - meanQ b)) a b)

/-- `np.diff`: consecutive differences `l[i+1] - l[i]`. -/
def diffQ (l : List ℚ) : List ℚ :=
  List.zipWith (fun x y => x - y) l.tail l

/-- Python `min` of a nonempty list (0 if empty, never hit). -/
def minQ (l : List ℚ) : ℚ :=
  match l with
  | [] => 0
  | x :: xs => xs.foldl min x

/-- Python `max` of a nonempty list (0 if empty, never hit). -/
def maxQ (l : List ℚ) : ℚ :=
  match l with
  | [] => 0
  | x :: xs => xs.foldl max x

/-- Insert into a sorted list (ascending). -/
def insertQ (x : ℚ) : List ℚ → List ℚ
  | [] => [x]
  | y :: ys => if x ≤ y then x :: y :: ys else y :: insertQ x ys

/-- Ascending insertion sort, modelling Python `sorted` on rationals. -/
def sortQ (l : List ℚ) : List ℚ :=
  l.foldr insertQ []

/-- `np.median`: middle element of the sorted list, or the mean of the two
middle elements for even length. -/
def medianQ (l : List ℚ) : ℚ :=
  let s := sortQ l
  let n := s.length
  if n = 0 then 0
  else if n % 2 = 1 then s.getD (n / 2) 0
  else (s.getD (n / 2 - 1) 0 + s.getD (n / 2) 0) / 2

/-- `np.linspace(a, b, num)`: `num` evenly spaced points from `a` to `b`
inclusive. -/
def linspace (a b : ℚ) : ℕ → List ℚ
  | 0 => []
  | 1 => [a]
  | Nat.succ (Nat.succ n) =>
    (List.range (n + 2)).map
      (fun (i : ℕ) => a + ((b - a) * (i : ℚ)) / (((n : ℚ) + 2) - 1))

/-- `np.interp(x, xp, fp)` on the zipped point list `xp.zip fp`, for sorted
`xp`: clamp below the first and above the last point, linear interpolation
in between. -/
def interpPts : List (ℚ × ℚ) → ℚ → ℚ
  | [], _ => 0
  | [p], _ => p.2
  | p :: q :: rest, x =>
    if x ≤ p.1 then p.2
    else if x ≤ q.1 then p.2 + (q.2 - p.2) * (x - p.1) / (q.1 - p.1)
    else interpPts (q :: rest) x

/-- Association-list lookup with Python-dict `get` semantics (first match;
the modelled dicts have unique keys). -/
def lookupStr {α : Type} (k : String) : List (String × α) → Option α
  | [] => none
  | (k', v) :: rest => if k = k' then some v else lookupStr k rest

/-! ## Activity rule engine (src/poseapp/analysis/activity_rules.py) -/

/-- `series_by_joint`: joint name → ordered `(t, angle)` samples.  Angle
samples are finite (the orchestration loop only appends finite angles). -/
def SeriesMap : Type := List (String × List (ℚ × ℚ))

/-- `series_by_joint.get(jkey, [])`. -/
def getSeries (m : SeriesMap) (k : String) : List (ℚ × ℚ) :=
  (lookupStr k m).getD []

/-- `targets` dict: joint name → target peak angle. -/
def TargetMap : Type := List (String × ℚ)

/-- A snapshot keypoint entry `{x, y, conf}`; `conf = none` models an entry
without a `"conf"` key (read back via `kp.get("conf", default)`). -/
structure Kp where
  x : ℚ
  y : ℚ
  conf : Option ℚ
deriving DecidableEq

/-- A per-frame keypoint-map snapshot; each field models
`snapshot.get(name)` for the keypoint names the rule engine reads. -/
structure Snapshot where
  left_wrist : Option Kp
  right_wrist : Option Kp
  left_ankle : Option Kp
  right_ankle : Option Kp
  left_toe : Option Kp
  right_toe : Option Kp
  left_heel : Option Kp
  right_heel : Option Kp
  left_hip : Option Kp
  right_hip : Option Kp
deriving DecidableEq

/-- `_peak_in_window`: max angle among samples with `t0 ≤ t ≤ t1`
(`np.nanmax`); `none` models the `float('nan')` returned when the window is
empty. -/
def peakInWindow (series : List (ℚ × ℚ)) (t0 t1 : ℚ) : Option ℚ :=
  let vals := (series.filter (fun pr => decide (t0 ≤ pr.1 ∧ pr.1 ≤ t1))).map
    Prod.snd
  match vals with
  | [] => none
  | v :: vs => some (vs.foldl max v)

/-- Locked side for the single-sided assessors. -/
inductive Side
  | L
  | R
deriving DecidableEq

/-- `_dominant_side_from_series`: infer L/R from `*_L_*` / `*_R_*` keys,
falling back when ambiguous. -/
def dominantSideFromSeries (keys : List String) (fallback : Side) : Side :=
  let hasL := keys.any
    (fun k => decide (List.IsInfix "_L_".toList k.toList) || k.endsWith "_L")
  let hasR := keys.any
    (fun k => decide (List.IsInfix "_R_".toList k.toList) || k.endsWith "_R")
  if hasL && !hasR then Side.L
  else if hasR && !hasL then Side.R
  else fallback

/-- `_hip_width`, parameterized by the hypotenuse function `hyp`
(`np.hypot`, irrational in general). -/
def hipWidth (hyp : ℚ → ℚ → ℚ) (s : Snapshot) : Option ℚ :=
  match s.left_hip, s.right_hip with
  | some L, some R => some (hyp (L.x - R.x) (L.y - R.y))
  | _, _ => none

/-- Python `a or b` on optional keypoints. -/
def orKp (a b : Option Kp) : Option Kp :=
  match a with
  | some v => some v
  | none => b

/-- `_min_wrist_to_foot_norm`: minimum wrist→(toe ∨ ankle ∨ heel) distance
normalised by hip width, over the snapshots; `none` if never measurable. -/
def minWristToFootNorm (hyp : ℚ → ℚ → ℚ) (snaps : List (ℚ × Snapshot))
    (side : Side) : Option ℚ :=
  snaps.foldl
    (fun best ts =>
      let s := ts.2
      let W := match side with
        | Side.L => s.left_wrist
        | Side.R => s.right_wrist
      let F := orKp
        (match side with | Side.L => s.left_toe | Side.R => s.right_toe)
        (orKp
          (match side with
            | Side.L => s.left_ankle
            | Side.R => s.right_ankle)
          (match side with
            | Side.L => s.left_heel
            | Side.R => s.right_heel))
      match W, F, hipWidth hyp s with
      | some w, some f, some hw =>
        if 1/1000000 < hw then
          let d := hyp (w.x - f.x) (w.y - f.y) / hw
          match best with
          | none => some d
          | some bv => some (min bv d)
        else best
      | _, _, _ => best)
    none

/-- `_ankle_vertical_rise_norm`: `(y_max - y_min) / median(hip widths)` of
the side's ankle over the snapshots; `none` with fewer than two valid
samples. -/
def ankleVerticalRiseNorm (hyp : ℚ → ℚ → ℚ) (snaps : List (ℚ × Snapshot))
    (side : Side) : Option ℚ :=
  let pairs := snaps.filterMap (fun ts =>
    let s := ts.2
    match (match side with
            | Side.L => s.left_ankle
            | Side.R => s.right_ankle), hipWidth hyp s with
    | some A, some hw => if 1/1000000 < hw then some (A.y, hw) else none
    | _, _ => none)
  let ys := pairs.map Prod.fst
  let hws := pairs.map Prod.snd
  if ys.length < 2 ∨ hws = [] then none
  else some ((maxQ ys - minQ ys) / medianQ hws)

/-- Score of a named entry in an assessor's band list
(`bands[jkey][0]`; the default is never hit, the keys are always
inserted). -/
def bandScoreOf (bands : List (String × (ℚ × Band))) (k : String) : ℚ :=
  ((lookupStr k bands).getD (0, Band.Red)).1

/-- The six joints banded by the squat assessor. -/
def squatJoints : List String :=
  ["knee_L_flex", "knee_R_flex", "hip_L_flex", "hip_R_flex",
   "ankle_L_pf", "ankle_R_pf"]

/-- `_squat_constraints`: knee Amber-or-better AND a ≥ 0.03 mid-hip vertical
drop across the snapshots. -/
def squatConstraints (t0 t1 : ℚ) (series : SeriesMap)
    (snaps : List (ℚ × Snapshot)) (targets : TargetMap) :
    Bool × String × List (String × (ℚ × Band)) :=
  let bands := squatJoints.map (fun jkey =>
    let tgt := (lookupStr jkey targets).getD 90
    (jkey, score_band (peakInWindow (getSeries series jkey) t0 t1) tgt))
  let ys := snaps.filterMap (fun ts =>
    match ts.2.left_hip, ts.2.right_hip with
    | some L, some R => some ((L.y + R.y) / 2)
    | _, _ => none)
  let dropped :=
    if 3 ≤ ys.length then decide (3/100 ≤ maxQ ys - minQ ys) else false
  let bestKnee := max (bandScoreOf bands "knee_L_flex")
    (bandScoreOf bands "knee_R_flex")
  let counted := decide ((1:ℚ)/2 ≤ bestKnee) && dropped
  let msgs := (if bestKnee < 1/2 then ["bend knees deeper"] else []) ++
    (if !dropped then ["lower hips more"] else [])
  let msgs := if msgs.isEmpty then ["ok"] else msgs
  (counted, String.intercalate "; " msgs, bands)

/-- The `wrx` series of `_arm_abduction_constraints`: left-minus-right wrist
x inside the window, for snapshots where both wrists are present with
confidence ≥ 0.4 (missing confidence defaults to 0.4 and passes). -/
def wristDiffXs (snaps : List (ℚ × Snapshot)) (t0 t1 : ℚ) : List ℚ :=
  snaps.filterMap (fun ts =>
    if t0 ≤ ts.1 ∧ ts.1 ≤ t1 then
      match ts.2.left_wrist, ts.2.right_wrist with
      | some lw, some rw =>
        if 2/5 ≤ lw.conf.getD (2/5) ∧ 2/5 ≤ rw.conf.getD (2/5) then
          some (lw.x - rw.x)
        else none
      | _, _ => none
    else none)

/-- `np.sign` on a rational. -/
def qsign (x : ℚ) : Int :=
  if 0 < x then 1 else if x < 0 then -1 else 0

/-- The crossing scan over consecutive `wrx` pairs: a zero sign or a sign
change anywhere means the wrists crossed the midline. -/
def crossedScan : List ℚ → Bool
  | a :: b :: rest =>
    decide (qsign a = 0) || decide (qsign b = 0) ||
      decide (qsign a ≠ qsign b) || crossedScan (b :: rest)
  | _ => false

/-- `_arm_abduction_constraints`: best shoulder Amber-or-better AND
(crossing seen OR fewer than 3 valid wrist samples). -/
def armAbductionConstraints (t0 t1 : ℚ) (series : SeriesMap)
    (snaps : List (ℚ × Snapshot)) (targets : TargetMap) :
    Bool × String × List (String × (ℚ × Band)) :=
  let bands := ["shoulder_L_abd", "shoulder_R_abd"].map (fun jkey =>
    let tgt := (lookupStr jkey targets).getD 175
    (jkey, score_band (peakInWindow (getSeries series jkey) t0 t1) tgt))
  let best := max (bandScoreOf bands "shoulder_L_abd")
    (bandScoreOf bands "shoulder_R_abd")
  let wrx := wristDiffXs snaps t0 t1
  let crossed := if 3 ≤ wrx.length then crossedScan wrx else false
  let counted := decide ((1:ℚ)/2 ≤ best) &&
    (crossed || decide (wrx.length < 3))
  let msgs := (if best < 1/2 then ["raise arms wider"] else []) ++
    (if 3 ≤ wrx.length ∧ crossed = false then ["wrists didn’t cross midline"]
     else [])
  let msgs := if msgs.isEmpty then ["ok"] else msgs
  (counted, String.intercalate "; " msgs, bands)

/-- `_forward_flexion_constraints`: single-side shoulder flexion band plus a
supportive hip band, counted when the shoulder is Amber-or-better and the
normalised wrist-to-foot reach gets within 0.60. -/
def forwardFlexionConstraints (hyp : ℚ → ℚ → ℚ) (t0 t1 : ℚ)
    (series : SeriesMap) (snaps : List (ℚ × Snapshot)) (targets : TargetMap) :
    Bool × String × List (String × (ℚ × Band)) :=
  let side := dominantSideFromSeries (series.map Prod.fst) Side.L
  let sj := match side with
    | Side.L => "shoulder_L_flex"
    | Side.R => "shoulder_R_flex"
  let hj := match side with
    | Side.L => "hip_L_flex"
    | Side.R => "hip_R_flex"
  let sSh := score_band (peakInWindow (getSeries series sj) t0 t1)
    ((lookupStr sj targets).getD 90)
  let sHip := score_band (peakInWindow (getSeries series hj) t0 t1)
    ((lookupStr hj targets).getD 30)
  let dmin := minWristToFootNorm hyp snaps side
  let proxOk := match dmin with
    | some d => decide (d ≤ 3/5)
    | none => false
  let counted := decide ((1:ℚ)/2 ≤ sSh.1) && proxOk
  let msgs := (if sSh.1 < 1/2 then ["flex shoulder more"] else []) ++
    (if proxOk = false then ["reach closer to feet"] else [])
  let msgs := if msgs.isEmpty then ["ok"] else msgs
  let bands := match dmin with
    | none => [(sj, (sSh.1, Band.Red)), (hj, sHip)]
    | some _ =>
      if proxOk = false ∧ sSh.2 = Band.Green then
        [(sj, ((1:ℚ)/2, Band.Amber)), (hj, sHip)]
      else [(sj, sSh), (hj, sHip)]
  (counted, String.intercalate "; " msgs, bands)

/-- `_calf_raise_constraints`: single-side plantarflexion band, counted when
Amber-or-better and the normalised ankle rise reaches 0.05. -/
def calfRaiseConstraints (hyp : ℚ → ℚ → ℚ) (t0 t1 : ℚ) (series : SeriesMap)
    (snaps : List (ℚ × Snapshot)) (targets : TargetMap) :
    Bool × String × List (String × (ℚ × Band)) :=
  let side := dominantSideFromSeries (series.map Prod.fst) Side.L
  let aj := match side with
    | Side.L => "ankle_L_pf"
    | Side.R => "ankle_R_pf"
  let sb := score_band (peakInWindow (getSeries series aj) t0 t1)
    ((lookupStr aj targets).getD 25)
  let riseNorm := ankleVerticalRiseNorm hyp snaps side
  let riseOk := match riseNorm with
    | none => false
    | some r => decide (1/20 ≤ r)
  let counted := decide ((1:ℚ)/2 ≤ sb.1) && riseOk
  let msgs := (if sb.1 < 1/2 then ["plantarflex more"] else []) ++
    (if riseOk = false then ["rise onto toes more"] else [])
  let msgs := if msgs.isEmpty then ["ok"] else msgs
  let bands := match riseNorm with
    | none => [(aj, (sb.1, Band.Red))]
    | some _ =>
      if riseOk = false ∧ sb.2 = Band.Green then
        [(aj, ((1:ℚ)/2, Band.Amber))]
      else [(aj, sb)]
  (counted, String.intercalate "; " msgs, bands)

/-- First-occurrence deduplication (the bucket keys of a Python dict, in
insertion order). -/
def dedupKeys (l : List ℚ) : List ℚ :=
  l.foldl (fun acc x => if x ∈ acc then acc else acc ++ [x]) []

/-- `_avg_in_window` of `_jumping_jack_constraints`: bucket all in-window
samples of the given keys by timestamp, average each bucket, and return the
timestamp-sorted list. -/
def avgInWindow (series : SeriesMap) (keys : List String) (t0 t1 : ℚ) :
    List (ℚ × ℚ) :=
  let pts := (keys.map (fun k =>
    (getSeries series k).filter
      (fun pr => decide (t0 ≤ pr.1 ∧ pr.1 ≤ t1)))).flatten
  let times := sortQ (dedupKeys (pts.map Prod.fst))
  times.map (fun t =>
    (t, meanQ ((pts.filter (fun pr => decide (pr.1 = t))).map Prod.snd)))

/-- The averaged in-window arm trajectory of the jumping-jack assessor. -/
def jjArms (series : SeriesMap) (t0 t1 : ℚ) : List (ℚ × ℚ) :=
  avgInWindow series ["shoulder_L_abd", "shoulder_R_abd"] t0 t1

/-- The averaged in-window leg trajectory of the jumping-jack assessor. -/
def jjLegs (series : SeriesMap) (t0 t1 : ℚ) : List (ℚ × ℚ) :=
  avgInWindow series ["hip_L_abd", "hip_R_abd"] t0 t1

/-- The common 20-point time grid over the overlap of two trajectories
(`np.linspace(max(min ta, min tl), min(max ta, max tl), num=20)`). -/
def jjCommonGrid (arms legs : List (ℚ × ℚ)) : List ℚ :=
  linspace
    (max (minQ (arms.map Prod.fst)) (minQ (legs.map Prod.fst)))
    (min (maxQ (arms.map Prod.fst)) (maxQ (legs.map Prod.fst)))
    20

/-- Resample a trajectory onto a grid with `np.interp`, then take first
differences (`np.diff`). -/
def resampleDiff (traj : List (ℚ × ℚ)) (grid : List ℚ) : List ℚ :=
  diffQ (grid.map (interpPts ((traj.map Prod.fst).zip (traj.map Prod.snd))))

/-- The jumping-jack common grid for a given window. -/
def jjGrid (series : SeriesMap) (t0 t1 : ℚ) : List ℚ :=
  jjCommonGrid (jjArms series t0 t1) (jjLegs series t0 t1)

/-- `da` of `_jumping_jack_constraints`: resampled arm trend differences. -/
def jjDa (series : SeriesMap) (t0 t1 : ℚ) : List ℚ :=
  resampleDiff (jjArms series t0 t1) (jjGrid series t0 t1)

/-- `dl` of `_jumping_jack_constraints`: resampled leg trend differences. -/
def jjDl (series : SeriesMap) (t0 t1 : ℚ) : List ℚ :=
  resampleDiff (jjLegs series t0 t1) (jjGrid series t0 t1)

/-- The rhythm cue of `_jumping_jack_constraints`.  The comparison
`np.std(x) > 1e-3` is written as its exact square `varQ x > 1e-6`, and —
when both variances are positive — `np.corrcoef(da, dl)[0,1] >= 0.2`, i.e.
`covQ da dl / (√(varQ da) * √(varQ dl)) ≥ 1/5`, is written as its exact
algebraic equivalent `0 ≤ covQ ∧ varQ da * varQ dl ≤ 25 * covQ²`.  When
either variance is trivial, `corr` falls back to `0.0` and `0.0 >= 0.2`
makes the cue false; with fewer than 4 points it defaults to OK. -/
def jjRhythmOk (series : SeriesMap) (t0 t1 : ℚ) : Bool :=
  if 4 ≤ (jjArms series t0 t1).length ∧ 4 ≤ (jjLegs series t0 t1).length then
    if 1/1000000 < varQ (jjDa series t0 t1) ∧
        1/1000000 < varQ (jjDl series t0 t1) then
      decide (0 ≤ covQ (jjDa series t0 t1) (jjDl series t0 t1) ∧
        varQ (jjDa series t0 t1) * varQ (jjDl series t0 t1) ≤
          25 * (covQ (jjDa series t0 t1) (jjDl series t0 t1))^2)
    else false
  else true

/-- `_jumping_jack_constraints`: arm and leg abduction bands combined with
the rhythm cue `jjRhythmOk`. -/
def jumpingJackConstraints (t0 t1 : ℚ) (series : SeriesMap)
    (snaps : List (ℚ × Snapshot)) (targets : TargetMap) :
    Bool × String × List (String × (ℚ × Band)) :=
  let bands := (["shoulder_L_abd", "shoulder_R_abd"].map (fun jkey =>
      (jkey, score_band (peakInWindow (getSeries series jkey) t0 t1)
        ((lookupStr jkey targets).getD 175)))) ++
    (["hip_L_abd", "hip_R_abd"].map (fun jkey =>
      (jkey, score_band (peakInWindow (getSeries series jkey) t0 t1)
        ((lookupStr jkey targets).getD 30))))
  let bestArm := max (bandScoreOf bands "shoulder_L_abd")
    (bandScoreOf bands "shoulder_R_abd")
  let bestLeg := max (bandScoreOf bands "hip_L_abd")
    (bandScoreOf bands "hip_R_abd")
  let rhythmOk := jjRhythmOk series t0 t1
  let counted := decide ((1:ℚ)/2 ≤ bestArm) && decide ((1:ℚ)/2 ≤ bestLeg) &&
    rhythmOk
  let msgs := (if bestArm < 1/2 then ["raise arms higher"] else []) ++
    (if bestLeg < 1/2 then ["spread legs wider"] else []) ++
    (if rhythmOk = false then ["sync arms/legs rhythm"] else [])
  let msgs := if msgs.isEmpty then ["ok"] else msgs
  (counted, String.intercalate "; " msgs, bands)

/-- `RepAssessment` dataclass. -/
structure RepAssessment where
  counted : Bool
  bands : List (String × (ℚ × Band))
  message : String
deriving DecidableEq

/-- `assess_activity_rep`: dispatch on the activity key; unknown keys count
with no detail. -/
def assessActivityRep (hyp : ℚ → ℚ → ℚ) (key : String) (series : SeriesMap)
    (t0 t1 : ℚ) (snaps : List (ℚ × Snapshot)) (targets : TargetMap) :
    RepAssessment :=
  match key with
  | "squat" =>
    let r := squatConstraints t0 t1 series snaps targets
    ⟨r.1, r.2.2, r.2.1⟩
  | "arm_abduction" =>
    let r := armAbductionConstraints t0 t1 series snaps targets
    ⟨r.1, r.2.2, r.2.1⟩
  | "forward_flexion" =>
    let r := forwardFlexionConstraints hyp t0 t1 series snaps targets
    ⟨r.1, r.2.2, r.2.1⟩
  | "calf_raise" =>
    let r := calfRaiseConstraints hyp t0 t1 series snaps targets
    ⟨r.1, r.2.2, r.2.1⟩
  | "jumping_jack" =>
    let r := jumpingJackConstraints t0 t1 series snaps targets
    ⟨r.1, r.2.2, r.2.1⟩
  | _ => ⟨true, [], "ok"⟩

/-! ## Claims about the rule engine -/

/-- Concrete arm-abduction scenario series: left shoulder abduction peaking
at 178° in-window; the right series is absent. -/
def aaSeriesScn : SeriesMap :=
  [("shoulder_L_abd", [(0, 100), (1, 178), (2, 90)])]

/-- A snapshot with both wrists on the same side of each other (no
crossing), confidence 1. -/
def aaSnapScn : Snapshot :=
  ⟨some ⟨3/10, 1/2, some 1⟩, some ⟨7/10, 1/2, some 1⟩,
   none, none, none, none, none, none, none, none⟩

/-- C6: an arm-abduction rep is counted iff the best shoulder-abduction
score is ≥ 0.5 and (the wrists crossed the midline or fewer than 3 valid
wrist samples exist in-window); concretely, with a 178° peak against the
175° default target and only 2 valid wrist samples, the rep is counted
regardless of crossing. -/
theorem C6_arm_abduction :
    (∀ (hyp : ℚ → ℚ → ℚ) (series : SeriesMap) (snaps : List (ℚ × Snapshot))
        (t0 t1 : ℚ) (targets : TargetMap),
      (assessActivityRep hyp "arm_abduction" series t0 t1 snaps
          targets).counted = true ↔
        (1/2 ≤ max
            (score_band (peakInWindow (getSeries series "shoulder_L_abd") t0 t1)
              ((lookupStr "shoulder_L_abd" targets).getD 175)).1
            (score_band (peakInWindow (getSeries series "shoulder_R_abd") t0 t1)
              ((lookupStr "shoulder_R_abd" targets).getD 175)).1 ∧
          (crossedScan (wristDiffXs snaps t0 t1) = true ∨
            (wristDiffXs snaps t0 t1).length < 3))) ∧
    (∀ hyp : ℚ → ℚ → ℚ,
      (assessActivityRep hyp "arm_abduction" aaSeriesScn 0 2
          [(1/2, aaSnapScn), (1, aaSnapScn)] []).counted = true ∧
      (wristDiffXs [(1/2, aaSnapScn), (1, aaSnapScn)] 0 2).length < 3 ∧
      peakInWindow (getSeries aaSeriesScn "shoulder_L_abd") 0 2 = some 178) := by
  constructor
  · intro hyp series snaps t0 t1 targets
    simp only [assessActivityRep, armAbductionConstraints, List.map_cons,
      List.map_nil, bandScoreOf, lookupStr]
    by_cases hlen : 3 ≤ (wristDiffXs snaps t0 t1).length
    · have hlen3 : ¬ (wristDiffXs snaps t0 t1).length < 3 := by omega
      simp [hlen, hlen3]
    · have hlen3 : (wristDiffXs snaps t0 t1).length < 3 := by omega
      simp [hlen, hlen3]
  · intro hyp
    refine ⟨?_, by norm_num [wristDiffXs, aaSnapScn, List.filterMap_cons,
      List.filterMap_nil, Option.getD], ?_⟩
    · norm_num [assessActivityRep, armAbductionConstraints, aaSeriesScn,
        aaSnapScn, getSeries, lookupStr, peakInWindow, wristDiffXs,
        bandScoreOf, score_band, crossedScan, abs_le, List.filterMap_cons,
        List.filterMap_nil, Option.getD]
    · norm_num [aaSeriesScn, getSeries, lookupStr, peakInWindow]

/-- The jumping-jack counterexample input: constant 170° arm abduction and
constant 25° hip abduction over four in-window samples (right-side series
absent), so both difference trajectories are identically zero. -/
def jjSeriesCE : SeriesMap :=
  [("shoulder_L_abd", [(0, 170), (1, 170), (2, 170), (3, 170)]),
   ("hip_L_abd", [(0, 25), (1, 25), (2, 25), (3, 25)])]

/-- Mapping a constant-up-to-equality function is a `replicate`. -/
theorem map_eval_const {α : Type} (g : List α) (f : α → ℚ) (c : ℚ)
    (h : ∀ x, f x = c) : g.map f = List.replicate g.length c := by
  induction g with
  | nil => rfl
  | cons a as ih => simp [h, List.replicate_succ, ih]

/-- Pointwise subtraction of a replicate against its one-longer version. -/
theorem zipSub_replicate (c : ℚ) :
    ∀ n, List.zipWith (fun x y => x - y) (List.replicate n c)
      (c :: List.replicate n c) = List.replicate n 0
  | 0 => rfl
  | n+1 => by
    simp only [List.replicate_succ, List.zipWith_cons_cons, sub_self,
      List.cons.injEq, true_and]
    exact zipSub_replicate c n

/-- `np.diff` of a constant list is all zeros. -/
theorem diffQ_replicate (c : ℚ) (n : ℕ) :
    diffQ (List.replicate (n+1) c) = List.replicate n 0 := by
  unfold diffQ
  rw [List.replicate_succ]
  simp only [List.tail_cons]
  exact zipSub_replicate c n

/-- Variance of an all-zero list is zero. -/
theorem varQ_replicate_zero (n : ℕ) : varQ (List.replicate n 0) = 0 := by
  have hm : meanQ (List.replicate n 0) = 0 := by
    simp [meanQ, List.sum_replicate]
  simp [varQ, hm, List.map_replicate, meanQ, List.sum_replicate]

/-- The arm trajectory of the counterexample evaluates to the constant
input samples. -/
theorem jjArmsCE_eval :
    jjArms jjSeriesCE 0 3 = [(0, 170), (1, 170), (2, 170), (3, 170)] := by
  have hget1 : getSeries jjSeriesCE "shoulder_L_abd" =
      [(0, 170), (1, 170), (2, 170), (3, 170)] := by
    simp [getSeries, lookupStr, jjSeriesCE]
  have hget2 : getSeries jjSeriesCE "shoulder_R_abd" = [] := by
    simp [getSeries, lookupStr, jjSeriesCE]
  unfold jjArms avgInWindow
  simp only [List.map_cons, List.map_nil, hget1, hget2]
  norm_num [dedupKeys, sortQ, insertQ, meanQ, List.filter_cons]

/-- The leg trajectory of the counterexample evaluates to the constant
input samples. -/
theorem jjLegsCE_eval :
    jjLegs jjSeriesCE 0 3 = [(0, 25), (1, 25), (2, 25), (3, 25)] := by
  have hget1 : getSeries jjSeriesCE "hip_L_abd" =
      [(0, 25), (1, 25), (2, 25), (3, 25)] := by
    simp [getSeries, lookupStr, jjSeriesCE]
  have hget2 : getSeries jjSeriesCE "hip_R_abd" = [] := by
    simp [getSeries, lookupStr, jjSeriesCE]
  unfold jjLegs avgInWindow
  simp only [List.map_cons, List.map_nil, hget1, hget2]
  norm_num [dedupKeys, sortQ, insertQ, meanQ, List.filter_cons]

/-- `np.linspace(a, b, n)` has exactly `n` points. -/
theorem linspace_length (a b : ℚ) : ∀ n : ℕ, (linspace a b n).length = n
  | 0 => rfl
  | 1 => rfl
  | (m+2) => by
    simp only [linspace]
    rw [List.length_map, List.length_range]

/-- Interpolation over a constant four-point trajectory is constant. -/
theorem interpPts_const4 (t1 t2 t3 t4 c x : ℚ) :
    interpPts [(t1, c), (t2, c), (t3, c), (t4, c)] x = c := by
  by_cases h1 : x ≤ t1
  · simp [interpPts, h1]
  · by_cases h2 : x ≤ t2
    · simp only [interpPts, if_neg h1, if_pos h2]
      ring
    · by_cases h3 : x ≤ t3
      · simp only [interpPts, if_neg h1, if_neg h2, if_pos h3]
        ring
      · by_cases h4 : x ≤ t4
        · simp only [interpPts, if_neg h1, if_neg h2, if_neg h3, if_pos h4]
          ring
        · simp only [interpPts, if_neg h1, if_neg h2, if_neg h3, if_neg h4]

/-- The counterexample's common grid is `linspace 0 3 20`. -/
theorem jjGridCE_eval : jjGrid jjSeriesCE 0 3 = linspace 0 3 20 := by
  rw [jjGrid, jjArmsCE_eval, jjLegsCE_eval]
  norm_num [jjCommonGrid, minQ, maxQ, min_def, max_def]

/-- The arm difference trajectory of the counterexample is identically
zero. -/
theorem jjDaCE_eval : jjDa jjSeriesCE 0 3 = List.replicate 19 0 := by
  rw [jjDa, jjArmsCE_eval, jjGridCE_eval]
  unfold resampleDiff
  have hzip : (([(0, 170), (1, 170), (2, 170), (3, 170)] :
      List (ℚ × ℚ)).map Prod.fst).zip
      (([(0, 170), (1, 170), (2, 170), (3, 170)] :
      List (ℚ × ℚ)).map Prod.snd) =
      [(0, 170), (1, 170), (2, 170), (3, 170)] := by rfl
  rw [hzip]
  rw [map_eval_const (linspace 0 3 20) _ 170
    (fun x => interpPts_const4 0 1 2 3 170 x)]
  rw [linspace_length 0 3 20]
  exact diffQ_replicate 170 19

/-- The leg difference trajectory of the counterexample is identically
zero. -/
theorem jjDlCE_eval : jjDl jjSeriesCE 0 3 = List.replicate 19 0 := by
  rw [jjDl, jjLegsCE_eval, jjGridCE_eval]
  unfold resampleDiff
  have hzip : (([(0, 25), (1, 25), (2, 25), (3, 25)] :
      List (ℚ × ℚ)).map Prod.fst).zip
      (([(0, 25), (1, 25), (2, 25), (3, 25)] :
      List (ℚ × ℚ)).map Prod.snd) =
      [(0, 25), (1, 25), (2, 25), (3, 25)] := by rfl
  rw [hzip]
  rw [map_eval_const (linspace 0 3 20) _ 25
    (fun x => interpPts_const4 0 1 2 3 25 x)]
  rw [linspace_length 0 3 20]
  exact diffQ_replicate 25 19

/-- The counterexample's rhythm cue is false: both variances are trivial,
so the code takes the `corr = 0.0` fallback and `0.0 >= 0.2` fails. -/
theorem jjRhythmOkCE_eval : jjRhythmOk jjSeriesCE 0 3 = false := by
  unfold jjRhythmOk
  rw [if_pos ⟨by rw [jjArmsCE_eval]; simp, by rw [jjLegsCE_eval]; simp⟩]
  rw [if_neg]
  intro hvar
  have h1 := hvar.1
  rw [jjDaCE_eval, varQ_replicate_zero] at h1
  norm_num at h1

/-- C1 counterexample: on constant 170° arm / 25° hip abduction over four
in-window samples, both the best arm score and the best leg score are 1
(≥ 0.5), both trajectories have 4 points, and both difference trajectories
have trivial variance (≤ 1e-6) — the claim then says the rhythm check
passes by default and the rep is counted — yet the code does not count the
rep, because with ≥ 4 points the trivial-variance fallback sets
`corr = 0.0`, and `0.0 >= 0.2` fails. -/
theorem C1_counterexample :
    (assessActivityRep (fun _ _ => 0) "jumping_jack" jjSeriesCE 0 3 []
        []).counted = false ∧
    (score_band (peakInWindow (getSeries jjSeriesCE "shoulder_L_abd") 0 3)
        175).1 = 1 ∧
    (score_band (peakInWindow (getSeries jjSeriesCE "hip_L_abd") 0 3)
        30).1 = 1 ∧
    (jjArms jjSeriesCE 0 3).length = 4 ∧
    (jjLegs jjSeriesCE 0 3).length = 4 ∧
    varQ (jjDa jjSeriesCE 0 3) ≤ 1/1000000 ∧
    varQ (jjDl jjSeriesCE 0 3) ≤ 1/1000000 := by
  have hgetA : getSeries jjSeriesCE "shoulder_L_abd" =
      [(0, 170), (1, 170), (2, 170), (3, 170)] := by
    simp [getSeries, lookupStr, jjSeriesCE]
  have hgetL : getSeries jjSeriesCE "hip_L_abd" =
      [(0, 25), (1, 25), (2, 25), (3, 25)] := by
    simp [getSeries, lookupStr, jjSeriesCE]
  refine ⟨?_, ?_, ?_, by rw [jjArmsCE_eval]; simp,
    by rw [jjLegsCE_eval]; simp,
    by rw [jjDaCE_eval, varQ_replicate_zero]; norm_num,
    by rw [jjDlCE_eval, varQ_replicate_zero]; norm_num⟩
  · simp only [assessActivityRep, jumpingJackConstraints, jjRhythmOkCE_eval,
      Bool.and_false]
  · rw [hgetA]
    norm_num [peakInWindow, score_band, List.filter_cons, abs_le]
  · rw [hgetL]
    norm_num [peakInWindow, score_band, List.filter_cons, abs_le]

/-- The rhythm check as the code implements it, as a proposition: with at
least 4 points in both averaged trajectories it *requires* both difference
trajectories to have non-trivial variance together with the (squared)
trend-correlation-≥-0.2 condition; with fewer points it passes by
default. -/
def jjRhythm (series : SeriesMap) (t0 t1 : ℚ) : Prop :=
  4 ≤ (jjArms series t0 t1).length → 4 ≤ (jjLegs series t0 t1).length →
    ((1/1000000 < varQ (jjDa series t0 t1) ∧
      1/1000000 < varQ (jjDl series t0 t1)) ∧
     0 ≤ covQ (jjDa series t0 t1) (jjDl series t0 t1) ∧
     varQ (jjDa series t0 t1) * varQ (jjDl series t0 t1) ≤
       25 * (covQ (jjDa series t0 t1) (jjDl series t0 t1))^2)

/-- The Bool-valued rhythm cue agrees with its Prop-level statement. -/
theorem jjRhythmOk_iff (series : SeriesMap) (t0 t1 : ℚ) :
    jjRhythmOk series t0 t1 = true ↔ jjRhythm series t0 t1 := by
  unfold jjRhythmOk jjRhythm
  by_cases hlen : 4 ≤ (jjArms series t0 t1).length ∧
      4 ≤ (jjLegs series t0 t1).length
  · rw [if_pos hlen]
    by_cases hvar : 1/1000000 < varQ (jjDa series t0 t1) ∧
        1/1000000 < varQ (jjDl series t0 t1)
    · rw [if_pos hvar]
      simp only [decide_eq_true_eq]
      constructor
      · intro hc _ _
        exact ⟨hvar, hc⟩
      · intro h
        exact (h hlen.1 hlen.2).2
    · rw [if_neg hvar]
      simp only [Bool.false_eq_true, false_iff]
      intro h
      exact hvar (h hlen.1 hlen.2).1
  · rw [if_neg hlen]
    constructor
    · intro _ h1 h2
      exact absurd ⟨h1, h2⟩ hlen
    · intro _
      rfl

/-- C1 (amended): a jumping-jack rep is counted iff the best
shoulder-abduction score is ≥ 0.5, the best hip-abduction score is ≥ 0.5,
and the rhythm check passes, where the rhythm check — when both resampled
trajectories have at least 4 points — additionally *requires* non-trivial
variance of both difference trajectories (trivial variance zeroes the
correlation and fails the ≥ 0.2 test); only fewer than 4 points make the
rhythm check pass by default. -/
theorem C1_amended :
    ∀ (hyp : ℚ → ℚ → ℚ) (series : SeriesMap) (snaps : List (ℚ × Snapshot))
      (t0 t1 : ℚ) (targets : TargetMap),
      (assessActivityRep hyp "jumping_jack" series t0 t1 snaps
          targets).counted = true ↔
        (1/2 ≤ max
            (score_band (peakInWindow (getSeries series "shoulder_L_abd") t0 t1)
              ((lookupStr "shoulder_L_abd" targets).getD 175)).1
            (score_band (peakInWindow (getSeries series "shoulder_R_abd") t0 t1)
              ((lookupStr "shoulder_R_abd" targets).getD 175)).1 ∧
         1/2 ≤ max
            (score_band (peakInWindow (getSeries series "hip_L_abd") t0 t1)
              ((lookupStr "hip_L_abd" targets).getD 30)).1
            (score_band (peakInWindow (getSeries series "hip_R_abd") t0 t1)
              ((lookupStr "hip_R_abd" targets).getD 30)).1 ∧
         jjRhythm series t0 t1) := by
  intro hyp series snaps t0 t1 targets
  have hr := jjRhythmOk_iff series t0 t1
  simp only [assessActivityRep, jumpingJackConstraints, List.map_cons,
    List.map_nil, List.cons_append, List.nil_append, bandScoreOf, lookupStr]
  simp [Bool.and_eq_true, decide_eq_true_eq, hr, and_assoc]

/-! ## Template matcher (src/poseapp/analysis/guide_match.py) -/

/-- A loaded reference template: phase vector (from the JSON file) and
per-joint angle series (from the CSV rows). -/
structure Template where
  phase : List ℚ
  series : List (String × List ℚ)

/-- `buckets.setdefault(jn, []).append(v)`: append to the joint's bucket,
creating it at the end on first sight (Python dicts preserve insertion
order). -/
def addRow (buckets : List (String × List ℚ)) (jn : String) (v : ℚ) :
    List (String × List ℚ) :=
  match buckets with
  | [] => [(jn, [v])]
  | (k, vs) :: rest =>
    if jn = k then (k, vs ++ [v]) :: rest
    else (k, vs) :: addRow rest jn v

/-- `load_template_for_activity`, with the file contents abstracted:
`phaseJson = none` models a missing JSON file (or one without a "phase"
key), `csvRows = none` a missing CSV file; a row's `none` fields model a
missing column or an unparsable float (both skipped). -/
def loadTemplate (phaseJson : Option (List ℚ))
    (csvRows : Option (List (Option String × Option ℚ))) : Template :=
  let phase := phaseJson.getD []
  let series := (csvRows.getD []).foldl
    (fun b r =>
      match r with
      | (some jn, some v) => addRow b jn v
      | _ => b) []
  ⟨phase, series⟩

/-- The per-activity preference order of `_template_scalar_for`
(`order.get(key, [])`). -/
def candidatesFor (key : String) : List String :=
  if key = "squat" then
    ["knee_ANY_flex", "knee_L_flex", "knee_R_flex"]
  else if key = "arm_abduction" then
    ["shoulder_ANY_abd", "shoulder_L_abd", "shoulder_R_abd"]
  else if key = "forward_flexion" then
    ["shoulder_ANY_flex", "shoulder_L_flex", "shoulder_R_flex"]
  else if key = "calf_raise" then
    ["ankle_ANY_pf", "ankle_L_pf", "ankle_R_pf"]
  else if key = "jumping_jack" then
    ["shoulder_ANY_abd", "shoulder_L_abd", "shoulder_R_abd"]
  else []

/-- First candidate joint present in the template series. -/
def firstIn (cands : List String) (series : List (String × List ℚ)) :
    Option (List ℚ) :=
  match cands with
  | [] => none
  | c :: rest =>
    match lookupStr c series with
    | some v => some v
    | none => firstIn rest series

/-- `np.nanmean(np.stack(rows), axis=0)` for equal-length all-finite rows:
the pointwise mean over the rows.  (On ragged rows `np.stack` raises; the
claims never reach that case, and this model averages the positions
available.) -/
def nanmeanStack (rows : List (List ℚ)) : List ℚ :=
  match rows with
  | [] => []
  | r0 :: _ =>
    (List.range r0.length).map (fun i => meanQ (rows.filterMap (fun r => r[i]?)))

/-- `_template_scalar_for`: first matching candidate, else the mean of all
available series, else `none`. -/
def templateScalarFor (key : String) (series : List (String × List ℚ)) :
    Option (List ℚ) :=
  match firstIn (candidatesFor key) series with
  | some arr => some arr
  | none =>
    match series with
    | [] => none
    | _ => some (nanmeanStack (series.map Prod.snd))

/-- The matcher's result `{mean_abs_err, phase_corr, band}`;
`mean_abs_err = none` models `float('nan')`. -/
structure GuideMatchResult where
  mean_abs_err : Option ℚ
  phase_corr : ℚ
  band : Band
deriving DecidableEq

/-- The defined degenerate result for insufficient data. -/
def degenerateMatch : GuideMatchResult :=
  ⟨none, 0, Band.Red⟩

/-- Core of `guide_match_activity_window` once the template scalar has been
selected.  `sq` abstracts the square root inside `np.nanstd`
(`std = sq ∘ variance`); every theorem stated below is independent of the
choice of `sq`. -/
def guideMatchCore (sq : ℚ → ℚ) (tplScalar : Option (List ℚ))
    (user : List (ℚ × ℚ)) (t0 t1 : ℚ) : GuideMatchResult :=
  match tplScalar with
  | none => degenerateMatch
  | some scalar =>
    if user.length < 4 then degenerateMatch
    else
      let ut := user.map Prod.fst
      let uv := user.map Prod.snd
      let phUser := ut.map (fun t => (t - t0) / max (1/1000000) (t1 - t0))
      let phTpl := linspace 0 1 scalar.length
      let uvOnTpl := phTpl.map (interpPts (phUser.zip uv))
      let mae := meanQ (List.zipWith (fun u r => |u - r|) uvOnTpl scalar)
      let z := fun (arr : List ℚ) =>
        let m := meanQ arr
        let s := sq (varQ arr) + 1/1000000
        arr.map (fun x => (x - m) / s)
      let pcorr := max 0 (min 1
        (1 - meanQ (List.zipWith (fun x y => |x - y|) (z uvOnTpl) (z scalar))))
      let band :=
        if mae ≤ 5 then Band.Green
        else if mae ≤ 10 then Band.Amber
        else Band.Red
      ⟨some mae, pcorr, band⟩

/-- `guide_match_activity_window`, with the template files' contents passed
in as parameters (the function reads them from disk). -/
def guide_match_activity_window (sq : ℚ → ℚ) (phaseJson : Option (List ℚ))
    (csvRows : Option (List (Option String × Option ℚ))) (key : String)
    (user : List (ℚ × ℚ)) (t0 t1 : ℚ) : GuideMatchResult :=
  guideMatchCore sq
    (templateScalarFor key (loadTemplate phaseJson csvRows).series)
    user t0 t1

/-- C7: the matcher returns exactly `{mean_abs_err = NaN, phase_corr = 0,
band = Red}` — never an exception (the model is a total function) — when
the user window has fewer than 4 samples, when the template CSV file is
missing, or in general whenever no reference scalar is available. -/
theorem C7_degenerate (sq : ℚ → ℚ) (phaseJson : Option (List ℚ))
    (csvRows : Option (List (Option String × Option ℚ))) (key : String)
    (user : List (ℚ × ℚ)) (t0 t1 : ℚ) :
    (user.length < 4 →
      guide_match_activity_window sq phaseJson csvRows key user t0 t1 =
        degenerateMatch) ∧
    guide_match_activity_window sq phaseJson none key user t0 t1 =
      degenerateMatch ∧
    (templateScalarFor key (loadTemplate phaseJson csvRows).series = none →
      guide_match_activity_window sq phaseJson csvRows key user t0 t1 =
        degenerateMatch) := by
  refine ⟨?_, ?_, ?_⟩
  · intro h
    unfold guide_match_activity_window guideMatchCore
    cases templateScalarFor key (loadTemplate phaseJson csvRows).series with
    | none => rfl
    | some s => simp [h]
  · have hfi : ∀ cands, firstIn cands [] = none := by
      intro cands
      induction cands with
      | nil => rfl
      | cons c rest ih => simp [firstIn, lookupStr, ih]
    have hser : (loadTemplate phaseJson none).series = [] := rfl
    unfold guide_match_activity_window
    rw [hser]
    unfold templateScalarFor
    rw [hfi]
    rfl
  · intro h
    unfold guide_match_activity_window
    rw [h]
    rfl

/-- Witness for C7: an empty user window gives the degenerate result. -/
theorem C7_witness :
    ([] : List (ℚ × ℚ)).length < 4 ∧
    guide_match_activity_window (fun _ => 0) none none "squat" [] 0 1 =
      degenerateMatch :=
  ⟨by norm_num,
   (C7_degenerate (fun _ => 0) none none "squat" [] 0 1).1 (by norm_num)⟩

/-- In a strictly increasing point list, every abscissa is bounded below by
the head's. -/
theorem chain_fst_head_le :
    ∀ (q : ℚ × ℚ) (rest : List (ℚ × ℚ)),
      List.Chain' (fun p r : ℚ × ℚ => p.1 < r.1) (q :: rest) →
      ∀ p ∈ q :: rest, q.1 ≤ p.1
  | q, [], _, p, hp => by
    rw [List.mem_singleton.mp hp]
  | q, r :: rest, h, p, hp => by
    obtain ⟨hqr, htl⟩ := List.chain'_cons.mp h
    rcases List.mem_cons.mp hp with hpq | hpm
    · rw [hpq]
    · exact le_of_lt (lt_of_lt_of_le hqr
        (chain_fst_head_le r rest htl p hpm))

/-- `np.interp` evaluated at one of its own (strictly increasing) sample
abscissas returns the corresponding ordinate. -/
theorem interpPts_self :
    ∀ (pts : List (ℚ × ℚ)),
      List.Chain' (fun p r : ℚ × ℚ => p.1 < r.1) pts →
      ∀ p ∈ pts, interpPts pts p.1 = p.2
  | [], _, p, hp => absurd hp (List.not_mem_nil p)
  | [p0], _, p, hp => by
    rw [List.mem_singleton.mp hp]
    rfl
  | p0 :: q0 :: rest, h, p, hp => by
    obtain ⟨hpq, htl⟩ := List.chain'_cons.mp h
    rcases List.mem_cons.mp hp with hp0 | hpm
    · rw [hp0]
      simp [interpPts]
    · have hq0le : q0.1 ≤ p.1 := chain_fst_head_le q0 rest htl p hpm
      have hx1 : ¬ p.1 ≤ p0.1 := not_le.mpr (lt_of_lt_of_le hpq hq0le)
      by_cases hx2 : p.1 ≤ q0.1
      · have hpeq : p.1 = q0.1 := le_antisymm hx2 hq0le
        rcases List.mem_cons.mp hpm with hpq0 | hprest
        · rw [hpq0]
          simp only [interpPts, if_neg (hpq0 ▸ hx1), if_pos le_rfl]
          have hne : q0.1 - p0.1 ≠ 0 := sub_ne_zero.mpr (ne_of_gt hpq)
          field_simp
        · cases rest with
          | nil => exact absurd hprest (List.not_mem_nil p)
          | cons r1 rs =>
            obtain ⟨hqr1, htl1⟩ := List.chain'_cons.mp htl
            have hr1p : r1.1 ≤ p.1 := chain_fst_head_le r1 rs htl1 p hprest
            exact absurd hpeq (ne_of_gt (lt_of_lt_of_le hqr1 hr1p))
      · simp only [interpPts, if_neg hx1, if_neg hx2]
        exact interpPts_self (q0 :: rest) htl p hpm

/-- `linspace 0 1 n` is strictly increasing for `n ≥ 2`. -/
theorem linspace01_chain (n : ℕ) (h2 : 2 ≤ n) :
    List.Chain' (· < ·) (linspace 0 1 n) := by
  have hex : ∃ m, n = m + 2 := ⟨n - 2, by omega⟩
  obtain ⟨m, rfl⟩ := hex
  simp only [linspace]
  rw [List.chain'_map]
  refine (List.chain'_range_succ _ _).mpr ?_
  intro i _
  have hm0 : (0 : ℚ) ≤ (m : ℚ) := Nat.cast_nonneg m
  have hden : (0 : ℚ) < ((m : ℚ) + 2) - 1 := by linarith
  simp only [zero_add]
  rw [div_lt_div_iff_of_pos_right hden]
  push_cast
  linarith

/-- Interpolating a strictly increasing point list back onto its own
abscissas reproduces its ordinates. -/
theorem map_interp_fst (pts : List (ℚ × ℚ))
    (h : List.Chain' (fun p r : ℚ × ℚ => p.1 < r.1) pts) :
    (pts.map Prod.fst).map (interpPts pts) = pts.map Prod.snd := by
  rw [List.map_map]
  exact List.map_congr_left (fun p hp => interpPts_self pts h p hp)

/-- Pointwise absolute difference of a list with itself is all zeros. -/
theorem zipWith_abs_sub_self :
    ∀ (l : List ℚ),
      List.zipWith (fun u r => |u - r|) l l = List.replicate l.length 0
  | [] => rfl
  | x :: xs => by
    simp [List.replicate_succ, zipWith_abs_sub_self xs]

/-- Mean of an all-zero list is zero. -/
theorem meanQ_replicate_zero (n : ℕ) : meanQ (List.replicate n 0) = 0 := by
  simp [meanQ, List.sum_replicate]

/-- C8: when a reference scalar of length N ≥ 4 is available and the user's
N in-window samples have phases equal to the template's uniform [0,1] grid
and values equal to the reference pointwise, the matcher reports
`mean_abs_err = 0` and band Green. -/
theorem C8_perfect_match (sq : ℚ → ℚ) (phaseJson : Option (List ℚ))
    (csvRows : Option (List (Option String × Option ℚ))) (key : String)
    (ref : List ℚ) (user : List (ℚ × ℚ)) (t0 t1 : ℚ) (N : ℕ)
    (href : templateScalarFor key (loadTemplate phaseJson csvRows).series =
      some ref)
    (hN : 4 ≤ N)
    (hlenRef : ref.length = N)
    (hlenUser : user.length = N)
    (hphase : (user.map Prod.fst).map
      (fun t => (t - t0) / max (1/1000000) (t1 - t0)) = linspace 0 1 N)
    (hvals : user.map Prod.snd = ref) :
    (guide_match_activity_window sq phaseJson csvRows key user
        t0 t1).mean_abs_err = some 0 ∧
    (guide_match_activity_window sq phaseJson csvRows key user
        t0 t1).band = Band.Green := by
  unfold guide_match_activity_window
  rw [href]
  simp only [guideMatchCore]
  rw [if_neg (by omega : ¬ user.length < 4)]
  have hlenPh : ((user.map Prod.fst).map
      (fun t => (t - t0) / max (1/1000000) (t1 - t0))).length = N := by
    rw [hphase, linspace_length]
  have hlenUv : (user.map Prod.snd).length = N := by
    rw [List.length_map, hlenUser]
  -- the zipped interpolation points are strictly increasing in the abscissa
  have hchain : List.Chain' (fun p r : ℚ × ℚ => p.1 < r.1)
      (((user.map Prod.fst).map
        (fun t => (t - t0) / max (1/1000000) (t1 - t0))).zip
        (user.map Prod.snd)) := by
    have hmfst : List.map Prod.fst
        (((user.map Prod.fst).map
          (fun t => (t - t0) / max (1/1000000) (t1 - t0))).zip
          (user.map Prod.snd)) =
        (user.map Prod.fst).map
          (fun t => (t - t0) / max (1/1000000) (t1 - t0)) :=
      List.map_fst_zip _ _ (by rw [hlenPh, hlenUv])
    have hch : List.Chain' (· < ·) (List.map Prod.fst
        (((user.map Prod.fst).map
          (fun t => (t - t0) / max (1/1000000) (t1 - t0))).zip
          (user.map Prod.snd))) := by
      rw [hmfst, hphase]
      exact linspace01_chain N (by omega)
    rw [List.chain'_map] at hch
    exact hch
  -- interpolating back onto the same grid reproduces the user values
  have hmfst : List.map Prod.fst
      (((user.map Prod.fst).map
        (fun t => (t - t0) / max (1/1000000) (t1 - t0))).zip
        (user.map Prod.snd)) =
      (user.map Prod.fst).map
        (fun t => (t - t0) / max (1/1000000) (t1 - t0)) :=
    List.map_fst_zip _ _ (by rw [hlenPh, hlenUv])
  have hsnd : List.map Prod.snd
      (((user.map Prod.fst).map
        (fun t => (t - t0) / max (1/1000000) (t1 - t0))).zip
        (user.map Prod.snd)) = user.map Prod.snd :=
    List.map_snd_zip _ _ (by rw [hlenPh, hlenUv])
  have hstep := map_interp_fst
    (((user.map Prod.fst).map
      (fun t => (t - t0) / max (1/1000000) (t1 - t0))).zip
      (user.map Prod.snd)) hchain
  rw [hmfst, hsnd] at hstep
  have hinterp : (linspace 0 1 ref.length).map
      (interpPts (((user.map Prod.fst).map
        (fun t => (t - t0) / max (1/1000000) (t1 - t0))).zip
        (user.map Prod.snd))) = ref := by
    rw [hlenRef, ← hphase, hstep, hvals]
  simp only [hinterp, zipWith_abs_sub_self, meanQ_replicate_zero]
  norm_num

/-- Witness for C8: a four-point template perfectly matched by the user
window `[0, 1]`. -/
theorem C8_witness :
    (guide_match_activity_window (fun _ => 0) none
        (some [(some "knee_ANY_flex", some 10), (some "knee_ANY_flex", some 20),
               (some "knee_ANY_flex", some 30), (some "knee_ANY_flex", some 40)])
        "squat" [(0, 10), (1/3, 20), (2/3, 30), (1, 40)] 0 1).mean_abs_err =
      some 0 ∧
    (guide_match_activity_window (fun _ => 0) none
        (some [(some "knee_ANY_flex", some 10), (some "knee_ANY_flex", some 20),
               (some "knee_ANY_flex", some 30), (some "knee_ANY_flex", some 40)])
        "squat" [(0, 10), (1/3, 20), (2/3, 30), (1, 40)] 0 1).band =
      Band.Green := by
  have hlin : linspace 0 1 4 = [0, 1/3, 2/3, 1] := by
    have h0 : linspace 0 1 4 = (List.range 4).map
        (fun (i : ℕ) => (0:ℚ) + ((1 - 0) * (i : ℚ)) / ((((2:ℕ) : ℚ) + 2) - 1)) :=
      rfl
    rw [h0, show List.range 4 = [0, 1, 2, 3] from rfl]
    norm_num
  refine C8_perfect_match (fun _ => 0) none _ "squat" [10, 20, 30, 40]
    [(0, 10), (1/3, 20), (2/3, 30), (1, 40)] 0 1 4 ?_ (by norm_num)
    (by simp) (by simp) ?_ (by simp)
  · simp [loadTemplate, addRow, templateScalarFor, candidatesFor, firstIn,
      lookupStr]
  · rw [hlin]
    norm_num [max_def]

/-! ## Gait tracker (src/poseapp/gait/metrics.py) -/

/-- The mutable state of `GaitTracker`: bounded histories, accepted step
events per side, and the derived metrics. -/
structure GaitState where
  histT : List ℚ
  histL : List (Option ℚ)
  histR : List (Option ℚ)
  histW : List (Option ℚ)
  eventsL : List (ℚ × ℚ)
  eventsR : List (ℚ × ℚ)
  cadence : ℚ
  stepL : Option ℚ
  stepR : Option ℚ
  si : Option ℚ
deriving DecidableEq

/-- Freshly constructed tracker. -/
def initGait : GaitState :=
  ⟨[], [], [], [], [], [], 0, none, none, none⟩

/-- `collections.deque(maxlen=m)` append: drop from the left when full. -/
def pushHist {α : Type} (m : ℕ) (l : List α) (x : α) : List α :=
  let l2 := l ++ [x]
  if m < l2.length then l2.drop (l2.length - m) else l2

/-- `_detect_events` for one side: if the last three samples are finite and
the middle one is a strict local minimum, record an event at the middle
timestamp unless it is within the refractory window of the previous
event. -/
def detectSide (minSep : ℚ) (histT : List ℚ) (histY : List (Option ℚ))
    (ev : List (ℚ × ℚ)) : List (ℚ × ℚ) :=
  match histY.reverse, histT.reverse with
  | some c :: some b :: some a :: _, _ :: tmid :: _ =>
    if b < a ∧ b < c then
      match ev.getLast? with
      | none => ev ++ [(tmid, b)]
      | some e => if minSep ≤ tmid - e.1 then ev ++ [(tmid, b)] else ev
    else ev
  | _, _ => ev

/-- Step time per side: time between the side's last two events. -/
def stepTimeOf (ev : List (ℚ × ℚ)) : Option ℚ :=
  match ev.reverse with
  | q :: pr :: _ => some (q.1 - pr.1)
  | _ => none

/-- The positive available step times (`sts`). -/
def stsOf (stL stR : Option ℚ) : List ℚ :=
  ([stL, stR].filterMap id).filter (fun x => decide (0 < x))

/-- Cadence: `60 / mean(sts)` steps per minute, 0 if none available. -/
def cadenceOf (stL stR : Option ℚ) : ℚ :=
  if (stsOf stL stR).isEmpty then 0 else 60 / meanQ (stsOf stL stR)

/-- Symmetry index when both step times are truthy and positive (Python's
`if stL and stR and stL > 0 and stR > 0`; the truthiness tests are the
`≠ 0` conjuncts). -/
def siOf (stL stR : Option ℚ) : Option ℚ :=
  match stL, stR with
  | some l, some r =>
    if l ≠ 0 ∧ r ≠ 0 ∧ 0 < l ∧ 0 < r then
      some (100 * |l - r| / ((l + r) / 2 + 1/1000000))
    else none
  | _, _ => none

/-- `_recompute_metrics`. -/
def recomputeGait (s : GaitState) : GaitState :=
  let stL := stepTimeOf s.eventsL
  let stR := stepTimeOf s.eventsR
  { s with stepL := stL, stepR := stR,
           cadence := cadenceOf stL stR, si := siOf stL stR }

/-- `GaitTracker.update(t, ankleL_y, ankleR_y, hip_width_px)`: append to
the histories (`none` models `None`/NaN), detect events on both sides,
recompute metrics. -/
def gaitUpdate (maxHist : ℕ) (minSep : ℚ) (s : GaitState) (t : ℚ)
    (yL yR w : Option ℚ) : GaitState :=
  let s1 : GaitState :=
    { s with histT := pushHist maxHist s.histT t,
             histL := pushHist maxHist s.histL yL,
             histR := pushHist maxHist s.histR yR,
             histW := pushHist maxHist s.histW w }
  let s2 : GaitState :=
    { s1 with eventsL := detectSide minSep s1.histT s1.histL s1.eventsL,
              eventsR := detectSide minSep s1.histT s1.histR s1.eventsR }
  recomputeGait s2

/-- Run a whole input sequence `(t, ankleL_y, ankleR_y, hip_width)` through
a freshly constructed tracker. -/
def runGait (maxHist : ℕ) (minSep : ℚ)
    (inputs : List (ℚ × Option ℚ × Option ℚ × Option ℚ)) : GaitState :=
  inputs.foldl
    (fun s i => gaitUpdate maxHist minSep s i.1 i.2.1 i.2.2.1 i.2.2.2)
    initGait

/-- Adjacent accepted events on one side are separated by at least the
refractory window. -/
def SepChain (minSep : ℚ) (ev : List (ℚ × ℚ)) : Prop :=
  List.Chain' (fun a b : ℚ × ℚ => minSep ≤ b.1 - a.1) ev

/-- Appending an event that clears the refractory window against the last
one preserves the separation invariant. -/
theorem sepChain_concat (minSep : ℚ) (ev : List (ℚ × ℚ)) (x : ℚ × ℚ)
    (h : SepChain minSep ev)
    (hx : ∀ e, ev.getLast? = some e → minSep ≤ x.1 - e.1) :
    SepChain minSep (ev ++ [x]) := by
  refine List.chain'_append.mpr ⟨h, List.chain'_singleton _, ?_⟩
  intro a ha y hy
  simp only [List.head?_cons, Option.mem_def, Option.some.injEq] at hy
  subst hy
  exact hx a (Option.mem_def.mp ha)

/-- `detectSide` preserves the separation invariant: a new event is only
appended when it clears the refractory window against the last one. -/
theorem detectSide_sep (minSep : ℚ) (histT : List ℚ)
    (histY : List (Option ℚ)) (ev : List (ℚ × ℚ))
    (h : SepChain minSep ev) :
    SepChain minSep (detectSide minSep histT histY ev) := by
  unfold detectSide
  split
  · split
    · cases hE : ev.getLast? with
      | none =>
        simp only [hE]
        refine sepChain_concat minSep ev _ h (fun e he => ?_)
        rw [hE] at he
        exact Option.noConfusion he
      | some e =>
        simp only [hE]
        split
        · rename_i hsep
          refine sepChain_concat minSep ev _ h (fun e' he' => ?_)
          rw [hE] at he'
          injection he' with h2
          subst h2
          exact hsep
        · exact h
    · exact h
  · exact h

/-- From the separation invariant, any reported step time (difference of
the last two accepted events) is at least the refractory window. -/
theorem stepTimeOf_sep (minSep : ℚ) (ev : List (ℚ × ℚ))
    (h : SepChain minSep ev) :
    ∀ s, stepTimeOf ev = some s → minSep ≤ s := by
  intro s hs
  unfold stepTimeOf at hs
  split at hs
  · rename_i q pr rest heq
    injection hs with hs'
    subst hs'
    have hrev : List.Chain'
        (flip (fun a b : ℚ × ℚ => minSep ≤ b.1 - a.1)) ev.reverse :=
      List.chain'_reverse.mpr h
    rw [heq] at hrev
    exact (List.chain'_cons.mp hrev).1
  · exact Option.noConfusion hs

/-- The consistency invariant maintained by `gaitUpdate`: both event lists
respect the refractory separation and the metric fields agree with
`_recompute_metrics` of the event lists. -/
def GaitInv (minSep : ℚ) (s : GaitState) : Prop :=
  SepChain minSep s.eventsL ∧ SepChain minSep s.eventsR ∧
  s.stepL = stepTimeOf s.eventsL ∧ s.stepR = stepTimeOf s.eventsR ∧
  s.cadence = cadenceOf s.stepL s.stepR ∧ s.si = siOf s.stepL s.stepR

/-- One update preserves the invariant. -/
theorem gaitUpdate_inv (maxHist : ℕ) (minSep : ℚ) (s : GaitState) (t : ℚ)
    (yL yR w : Option ℚ) (h : GaitInv minSep s) :
    GaitInv minSep (gaitUpdate maxHist minSep s t yL yR w) := by
  obtain ⟨hL, hR, _, _, _, _⟩ := h
  exact ⟨detectSide_sep _ _ _ _ hL, detectSide_sep _ _ _ _ hR,
    rfl, rfl, rfl, rfl⟩

/-- Every reachable tracker state satisfies the invariant. -/
theorem runGait_inv (maxHist : ℕ) (minSep : ℚ)
    (inputs : List (ℚ × Option ℚ × Option ℚ × Option ℚ)) :
    GaitInv minSep (runGait maxHist minSep inputs) := by
  unfold runGait
  have step : ∀ (l : List (ℚ × Option ℚ × Option ℚ × Option ℚ))
      (s : GaitState), GaitInv minSep s →
      GaitInv minSep (l.foldl
        (fun s i => gaitUpdate maxHist minSep s i.1 i.2.1 i.2.2.1 i.2.2.2) s) := by
    intro l
    induction l with
    | nil => exact fun s hs => hs
    | cons x xs ih =>
      intro s hs
      exact ih _ (gaitUpdate_inv maxHist minSep s x.1 x.2.1 x.2.2.1 x.2.2.2 hs)
  exact step inputs initGait ⟨List.chain'_nil, List.chain'_nil, rfl, rfl, rfl, rfl⟩

/-- A list of elements each at least `c` has sum at least `length * c`. -/
theorem sum_ge_len_mul (c : ℚ) :
    ∀ (l : List ℚ), (∀ x ∈ l, c ≤ x) → (l.length : ℚ) * c ≤ l.sum
  | [], _ => by simp
  | x :: xs, h => by
    have h1 := h x (List.mem_cons_self x xs)
    have h2 := sum_ge_len_mul c xs (fun y hy => h y (List.mem_cons_of_mem x hy))
    simp only [List.sum_cons, List.length_cons]
    push_cast
    linarith

/-- A nonempty list of elements each at least `c` has mean at least `c`. -/
theorem meanQ_le_of_forall (l : List ℚ) (c : ℚ) (hne : l ≠ [])
    (h : ∀ x ∈ l, c ≤ x) : c ≤ meanQ l := by
  have hlen : (0 : ℚ) < (l.length : ℚ) := by
    exact_mod_cast List.length_pos.mpr hne
  have hsum := sum_ge_len_mul c l h
  unfold meanQ
  rw [le_div_iff₀ hlen]
  linarith

/-- The cadence bound: when nonzero, `60 / mean(sts)` cannot exceed
`60 / minSep` because every contributing step time is at least `minSep`. -/
theorem cadenceOf_le (minSep : ℚ) (stL stR : Option ℚ) (hpos : 0 < minSep)
    (hL : ∀ s, stL = some s → minSep ≤ s)
    (hR : ∀ s, stR = some s → minSep ≤ s)
    (hc : cadenceOf stL stR ≠ 0) :
    cadenceOf stL stR ≤ 60 / minSep := by
  unfold cadenceOf at hc ⊢
  by_cases he : (stsOf stL stR).isEmpty
  · rw [if_pos he] at hc
    exact absurd rfl hc
  · rw [if_neg he]
    have hne : stsOf stL stR ≠ [] := by
      intro h0
      rw [h0] at he
      exact he rfl
    have hall : ∀ x ∈ stsOf stL stR, minSep ≤ x := by
      intro x hx
      have hx' := List.mem_filter.mp hx
      rcases List.mem_filterMap.mp hx'.1 with ⟨o, ho, hoeq⟩
      have hosome : o = some x := hoeq
      rcases List.mem_cons.mp ho with h1 | h2
      · exact hL x (by rw [← h1, hosome])
      · rcases List.mem_cons.mp h2 with h3 | h4
        · exact hR x (by rw [← h3, hosome])
        · exact absurd h4 (List.not_mem_nil o)
    have hmean : minSep ≤ meanQ (stsOf stL stR) :=
      meanQ_le_of_forall _ _ hne hall
    have hmeanpos : 0 < meanQ (stsOf stL stR) := lt_of_lt_of_le hpos hmean
    rw [div_le_div_iff₀ hmeanpos hpos]
    nlinarith

/-- A reported symmetry index forces both step times to be present and
positive. -/
theorem siOf_some (stL stR : Option ℚ) (x : ℚ) (h : siOf stL stR = some x) :
    ∃ l r, stL = some l ∧ stR = some r ∧ 0 < l ∧ 0 < r := by
  unfold siOf at h
  split at h
  · rename_i l r
    split at h
    · rename_i hc
      exact ⟨l, r, rfl, rfl, hc.2.2.1, hc.2.2.2⟩
    · exact Option.noConfusion h
  · exact Option.noConfusion h

/-- C10: for every input sequence, any reported step time is at least
`min_event_separation_s`; hence a nonzero cadence never exceeds
`60 / min_event_separation_s`; and the symmetry index is reported only when
both sides have a positive measured step time. -/
theorem C10_gait_invariants (maxHist : ℕ) (minSep : ℚ)
    (inputs : List (ℚ × Option ℚ × Option ℚ × Option ℚ))
    (hpos : 0 < minSep) :
    (∀ s, (runGait maxHist minSep inputs).stepL = some s → minSep ≤ s) ∧
    (∀ s, (runGait maxHist minSep inputs).stepR = some s → minSep ≤ s) ∧
    ((runGait maxHist minSep inputs).cadence ≠ 0 →
      (runGait maxHist minSep inputs).cadence ≤ 60 / minSep) ∧
    (∀ x, (runGait maxHist minSep inputs).si = some x →
      ∃ l r, (runGait maxHist minSep inputs).stepL = some l ∧
        (runGait maxHist minSep inputs).stepR = some r ∧ 0 < l ∧ 0 < r) := by
  obtain ⟨hcL, hcR, hsL, hsR, hcad, hsi⟩ := runGait_inv maxHist minSep inputs
  have hLb : ∀ s, (runGait maxHist minSep inputs).stepL = some s →
      minSep ≤ s := by
    intro s hs
    rw [hsL] at hs
    exact stepTimeOf_sep minSep _ hcL s hs
  have hRb : ∀ s, (runGait maxHist minSep inputs).stepR = some s →
      minSep ≤ s := by
    intro s hs
    rw [hsR] at hs
    exact stepTimeOf_sep minSep _ hcR s hs
  refine ⟨hLb, hRb, ?_, ?_⟩
  · intro hc
    rw [hcad] at hc ⊢
    exact cadenceOf_le minSep _ _ hpos hLb hRb hc
  · intro x hx
    rw [hsi] at hx
    exact siOf_some _ _ x hx

/-- Input trace for the C10 witness: two left-ankle local minima at t = 1
and t = 3. -/
def gaitInputsW : List (ℚ × Option ℚ × Option ℚ × Option ℚ) :=
  [(0, some 2, none, none), (1, some 1, none, none), (2, some 2, none, none),
   (3, some 1, none, none), (4, some 2, none, none)]

set_option maxHeartbeats 1000000 in
/-- Witness for C10: the trace produces a left step time of 2 ≥ 1/4 and a
cadence of 30 ≤ 240. -/
theorem C10_witness :
    (runGait 300 (1/4) gaitInputsW).stepL = some 2 ∧
    (1/4 : ℚ) ≤ 2 ∧
    (runGait 300 (1/4) gaitInputsW).cadence ≤ 60 / (1/4) := by
  have h1 : gaitUpdate 300 (1/4) initGait 0 (some 2) none none =
      ⟨[0], [some 2], [none], [none], [], [], 0, none, none, none⟩ := by
    norm_num [gaitUpdate, pushHist, detectSide, recomputeGait, stepTimeOf,
      cadenceOf, stsOf, siOf, meanQ, initGait]
  have h2 : gaitUpdate 300 (1/4)
      ⟨[0], [some 2], [none], [none], [], [], 0, none, none, none⟩
      1 (some 1) none none =
      ⟨[0, 1], [some 2, some 1], [none, none], [none, none], [], [], 0,
       none, none, none⟩ := by
    norm_num [gaitUpdate, pushHist, detectSide, recomputeGait, stepTimeOf,
      cadenceOf, stsOf, siOf, meanQ]
  have h3 : gaitUpdate 300 (1/4)
      ⟨[0, 1], [some 2, some 1], [none, none], [none, none], [], [], 0,
       none, none, none⟩
      2 (some 2) none none =
      ⟨[0, 1, 2], [some 2, some 1, some 2], [none, none, none],
       [none, none, none], [(1, 1)], [], 0, none, none, none⟩ := by
    norm_num [gaitUpdate, pushHist, detectSide, recomputeGait, stepTimeOf,
      cadenceOf, stsOf, siOf, meanQ]
  have h4 : gaitUpdate 300 (1/4)
      ⟨[0, 1, 2], [some 2, some 1, some 2], [none, none, none],
       [none, none, none], [(1, 1)], [], 0, none, none, none⟩
      3 (some 1) none none =
      ⟨[0, 1, 2, 3], [some 2, some 1, some 2, some 1],
       [none, none, none, none], [none, none, none, none], [(1, 1)], [], 0,
       none, none, none⟩ := by
    norm_num [gaitUpdate, pushHist, detectSide, recomputeGait, stepTimeOf,
      cadenceOf, stsOf, siOf, meanQ]
  have h5 : gaitUpdate 300 (1/4)
      ⟨[0, 1, 2, 3], [some 2, some 1, some 2, some 1],
       [none, none, none, none], [none, none, none, none], [(1, 1)], [], 0,
       none, none, none⟩
      4 (some 2) none none =
      ⟨[0, 1, 2, 3, 4], [some 2, some 1, some 2, some 1, some 2],
       [none, none, none, none, none], [none, none, none, none, none],
       [(1, 1), (3, 1)], [], 30, some 2, none, none⟩ := by
    norm_num [gaitUpdate, pushHist, detectSide, recomputeGait, stepTimeOf,
      cadenceOf, stsOf, siOf, meanQ, List.filterMap_cons, List.filterMap_nil,
      List.filter_cons, List.filter_nil, id_eq]
  have hrun : runGait 300 (1/4) gaitInputsW =
      ⟨[0, 1, 2, 3, 4], [some 2, some 1, some 2, some 1, some 2],
       [none, none, none, none, none], [none, none, none, none, none],
       [(1, 1), (3, 1)], [], 30, some 2, none, none⟩ := by
    unfold runGait gaitInputsW
    simp only [List.foldl_cons, List.foldl_nil]
    rw [h1, h2, h3, h4, h5]
  have h := C10_gait_invariants 300 (1/4) gaitInputsW (by norm_num)
  have hstep : (runGait 300 (1/4) gaitInputsW).stepL = some 2 := by
    rw [hrun]
  have hcad : (runGait 300 (1/4) gaitInputsW).cadence ≠ 0 := by
    rw [hrun]
    norm_num
  exact ⟨hstep, h.1 2 hstep, h.2.2.1 hcad⟩

end PoseApp
